import Mathlib

/-!
Shallow embedding of the AutoBookRead backend (`src/app.py`), a Flask
service with five endpoints: `/upload`, `/text`, `/summarize`, `/tts` and
`/audio/<filename>`.  Pure Python helpers become Lean functions; the file
system becomes an explicit `ServerState` record threaded through the
endpoint handlers; Python exceptions become an `Except PyExc` computation
caught at the handler boundary, mirroring the `try/except`
clauses.  External collaborators (PyPDF2, the Google generative-language
API, pyttsx3, the Flask helper `send_from_directory`) are modelled by parameters
or by small definitions faithful to their documented behaviour.
-/

/-- A JSON value as it appears in the flat request bodies this service
receives.  The bodies the handlers read are flat objects, so nesting is
not modelled. -/
inductive Json where
  | null : Json
  | bool : Bool → Json
  | int : Int → Json
  | str : String → Json
deriving DecidableEq, Repr

/-- Python truthiness (`if not x`) for the JSON values above:
`None`, `False`, `0` and `""` are falsy. -/
def pyTruthy : Json → Bool
  | .null => false
  | .bool b => b
  | .int n => n != 0
  | .str s => s != ""

/-- Python `str()` of a JSON value, as used by f-string interpolation. -/
def pyStr : Json → String
  | .null => "None"
  | .bool b => if b then "True" else "False"
  | .int n => toString n
  | .str s => s

/-- The Python exceptions the handlers distinguish.  `werkzeugNotFound` is
the `NotFound` HTTPException raised by Flask helpers; it is a different
class from the builtin `FileNotFoundError`.  `genericError` stands for any
other exception (e.g. PyPDF2 parse errors), caught only by bare
`except Exception` clauses. -/
inductive PyExc where
  | valueError : PyExc
  | typeError : PyExc
  | fileNotFoundError : PyExc
  | werkzeugNotFound : PyExc
  | genericError : PyExc
deriving DecidableEq, Repr

/-- The numeric value of a non-empty decimal digit sequence, or `none`
when the characters are not all digits. -/
def natOfDigits : List Char → Option Nat
  | [] => none
  | ds =>
    if ds.all Char.isDigit then
      some (ds.foldl (fun n c => n * 10 + (c.toNat - 48)) 0)
    else none

/-- Python `int(str)`: surrounding whitespace is stripped, then an
optional sign followed by decimal digits (underscore group separators
are not modelled). -/
def parsePyInt (s : String) : Option Int :=
  let cs := ((s.data.dropWhile Char.isWhitespace).reverse.dropWhile
    Char.isWhitespace).reverse
  match cs with
  | '+' :: ds => (natOfDigits ds).map Int.ofNat
  | '-' :: ds => (natOfDigits ds).map (fun n => -(n : Int))
  | ds => (natOfDigits ds).map Int.ofNat

/-- Python `int(x)` on a JSON value: ints pass through, booleans become
0/1, strings are parsed (failure raises `ValueError`), `None` raises
`TypeError`. -/
def pyInt : Json → Except PyExc Int
  | .int n => .ok n
  | .bool b => .ok (if b then 1 else 0)
  | .str s =>
    match parsePyInt s with
    | some n => .ok n
    | none => .error .valueError
  | .null => .error .typeError

instance {ε α : Type} [DecidableEq ε] [DecidableEq α] : DecidableEq (Except ε α) := fun a b =>
  match a, b with
  | .ok x, .ok y =>
    if h : x = y then .isTrue (congrArg Except.ok h)
    else .isFalse (fun c => h (by injection c))
  | .error x, .error y =>
    if h : x = y then .isTrue (congrArg Except.error h)
    else .isFalse (fun c => h (by injection c))
  | .ok _, .error _ => .isFalse (fun c => Except.noConfusion c)
  | .error _, .ok _ => .isFalse (fun c => Except.noConfusion c)

/-- Python `data.get(key)` on a flat JSON object. -/
def jget (body : List (String × Json)) (k : String) : Option Json :=
  List.lookup k body

/-- A parsed PDF as PyPDF2 exposes it for this code: the list of pages,
each carrying the result of `page.extract_text()` — `none` when per-page
text extraction fails (returns nothing). -/
structure PdfDoc where
  pages : List (Option String)
deriving DecidableEq, Repr

/-- Function `extract_text_from_pdf(pdf_path, start_page, end_page)` from
`src/app.py` lines 34–54: clamps `start_page` to at least 1 and
`end_page` to at most the page count, returns `""` when the clamped
start exceeds the clamped end, otherwise accumulates
`page.extract_text() or ""` over `range(start_page - 1, end_page)`,
guarded by `page_num < num_pages_actual`. -/
def extract_text_from_pdf (d : PdfDoc) (start_page end_page : Int) : String :=
  let num_pages_actual : Int := d.pages.length
  let s := max 1 start_page
  let e := min num_pages_actual end_page
  if s > e then ""
  else
    (List.range' (s - 1).toNat (e - (s - 1)).toNat).foldl
      (fun text page_num =>
        if (Int.ofNat page_num) < num_pages_actual then
          text ++ ((d.pages.getD page_num none).getD "")
        else text) ""

/-- The per-page texts of a document, a failed page contributing `""`. -/
def pageTexts (d : PdfDoc) : List String :=
  d.pages.map (fun p => p.getD "")

/-- Concatenation of a list of strings in order. -/
def concatAll (l : List String) : String :=
  l.foldr (fun a b => a ++ b) ""

/-- The body of an HTTP response: a JSON object (from `jsonify`), the
raw contents of a served file (from `send_from_directory`), or an HTML
error page (the default Flask rendering of an uncaught `HTTPException`). -/
inductive RespBody where
  | json : List (String × Json) → RespBody
  | file : String → RespBody
  | html : String → RespBody
deriving DecidableEq, Repr

/-- An HTTP response: status code plus body. -/
structure Response where
  status : Nat
  body : RespBody
deriving DecidableEq, Repr

/-- Does a response carry a JSON object body with an `error` field? -/
def hasJsonErrorField (r : Response) : Bool :=
  match r.body with
  | .json fields => (List.lookup "error" fields).isSome
  | _ => false

/-- Python `str.lower()`, modelled on the ASCII range. -/
def strLower (s : String) : String :=
  String.mk (s.data.map Char.toLower)

/-- Python `os.path.splitext(name)[1]`: the suffix starting at the last dot of
`name`, except that a name whose part before that dot is all dots has no
extension (e.g. `".bashrc"`). -/
def extOf (name : String) : String :=
  let cs := name.data
  match (cs.reverse.findIdx? (fun c => c = '.')).map
      (fun j => cs.length - 1 - j) with
  | none => ""
  | some i => if (cs.take i).all (fun c => c = '.') then "" else String.mk (cs.drop i)

/-- Helper `generate_unique_filename(original_filename)` (`src/app.py` lines
56–60): a fresh 128-bit identifier plus the original extension.  The
random `uuid.uuid4()` value is passed in as `u`. -/
def generate_unique_filename (u : String) (original_filename : String) : String :=
  u ++ extOf original_filename

/-- The persistent file system of the server: the uploads folder maps stored
names to the saved file (`none` when the bytes do not parse as a PDF),
and the audio folder maps stored names to audio file contents. -/
structure ServerState where
  uploads : List (String × Option PdfDoc)
  audio : List (String × String)
deriving DecidableEq, Repr

/-- A file arriving in the multipart `file` field: its client-supplied
name and what `PdfReader` makes of its bytes once saved. -/
structure UploadedFile where
  filename : String
  parsed : Option PdfDoc
deriving DecidableEq, Repr

/-- The `/upload` handler (`src/app.py` lines 63–92).  Validates presence of
the file part, non-empty filename and a `.pdf` extension (lower-cased);
then saves the file under `generate_unique_filename` and reads it with
`PdfReader`, answering the stored name and page count, or 500 when the
saved bytes fail to parse (the saved file remains on disk). -/
def upload_pdf (st : ServerState) (u : String) (filePart : Option UploadedFile) :
    Response × ServerState :=
  match filePart with
  | none => (⟨400, .json [("error", .str "No file part")]⟩, st)
  | some file =>
    if file.filename = "" then
      (⟨400, .json [("error", .str "No selected file")]⟩, st)
    else if strLower (extOf file.filename) ≠ ".pdf" then
      (⟨400, .json [("error", .str "Invalid file type, only PDF allowed")]⟩, st)
    else
      let unique_filename := generate_unique_filename u file.filename
      let st' := { st with uploads := (unique_filename, file.parsed) :: st.uploads }
      match file.parsed with
      | some reader =>
        (⟨200, .json [("server_filename", .str unique_filename),
                      ("num_pages", .int reader.pages.length)]⟩, st')
      | none =>
        (⟨500, .json [("error", .str "Failed to process uploaded file")]⟩, st')

/-- The `/text` handler (`src/app.py` lines 95–118).  Inside the `try` block:
reads `server_filename`, converts `start_page`/`end_page` with `int`
(default 1), rejects a falsy filename with 400, answers 404 when the
stored file is absent, and otherwise extracts.  `except ValueError`
yields the 400 invalid-page-numbers response, `except FileNotFoundError`
a 404, and `except Exception` the 500 failed-to-extract response. -/
def get_text (uploads : List (String × Option PdfDoc)) (body : List (String × Json)) :
    Response :=
  let server_filename := (jget body "server_filename").getD .null
  let tryBlock : Except PyExc Response :=
    match pyInt ((jget body "start_page").getD (.int 1)) with
    | .error ex => .error ex
    | .ok start_page =>
      match pyInt ((jget body "end_page").getD (.int 1)) with
      | .error ex => .error ex
      | .ok end_page =>
        if pyTruthy server_filename then
          match server_filename with
          | .str f =>
            match List.lookup f uploads with
            | none => .ok ⟨404, .json [("error", .str "PDF file not found on server")]⟩
            | some none => .error .genericError
            | some (some reader) =>
              .ok ⟨200, .json [("text",
                .str (extract_text_from_pdf reader start_page end_page))]⟩
          | _ => .error .typeError
        else
          .ok ⟨400, .json [("error", .str "Missing server_filename")]⟩
  match tryBlock with
  | .ok r => r
  | .error .fileNotFoundError => ⟨404, .json [("error", .str "PDF file not found on server")]⟩
  | .error .valueError => ⟨400, .json [("error", .str "Invalid page numbers provided")]⟩
  | .error _ => ⟨500, .json [("error", .str "Failed to extract text")]⟩

/-- The prompt template of `/summarize` (`src/app.py` lines 131–141),
with the request text interpolated where the f-string places it. -/
def mkPrompt (text : String) : String :=
  "Summarize the following text point-wise in Markdown format.\n        Each main point should start with \x27* \x27.\n        Ensure the summary is concise, well-structured, and covers the key information.\n        Do not include any introductory or concluding phrases like \"Here is the summary:\".\n\n        Text to summarize:\n        ---\n        "
    ++ text ++
  "\n        ---\n        Summary:\n        "

/-- The `/summarize` handler (`src/app.py` lines 120–153).  Checks the
`GOOGLE_API_KEY` credential before touching the body, rejects falsy text
with 400, then calls the remote model on the prompt (`remote` maps the
prompt to the response text or to the message of the raised error) and
answers the stripped response text, or 500 carrying the error message. -/
def summarize_text (googleApiKey : Option String)
    (remote : String → Except String String)
    (body : List (String × Json)) : Response :=
  match googleApiKey with
  | none => ⟨500, .json [("error", .str "AI Service not configured on server")]⟩
  | some _ =>
    let text := (jget body "text").getD .null
    if pyTruthy text then
      match remote (mkPrompt (pyStr text)) with
      | .error e => ⟨500, .json [("error", .str ("Failed to generate summary: " ++ e))]⟩
      | .ok t => ⟨200, .json [("summary", .str t.trim)]⟩
    else
      ⟨400, .json [("error", .str "No text provided for summarization")]⟩

/-- The `/tts` handler (`src/app.py` lines 155–190).  Rejects falsy text with
400; otherwise synthesises to `uuid ++ ".mp3"` in the audio folder.
`synth` is the pyttsx3 run: `.error` when the engine raises (caught as
500), `.ok (some c)` when it writes a file with contents `c`, and
`.ok none` when it silently writes nothing.  The post-condition check of
the output file only prints a warning, so the completed response and the
`/audio/...` URL are returned regardless. -/
def text_to_speech (st : ServerState) (u : String) (synth : Except Unit (Option String))
    (body : List (String × Json)) : Response × ServerState :=
  let text := (jget body "text").getD .null
  if pyTruthy text then
    let audio_filename := u ++ ".mp3"
    match synth with
    | .error _ => (⟨500, .json [("error", .str "Failed to generate audio")]⟩, st)
    | .ok written =>
      let st' :=
        match written with
        | some contents => { st with audio := (audio_filename, contents) :: st.audio }
        | none => st
      (⟨200, .json [("status", .str "completed"),
                    ("audio_url", .str ("/audio/" ++ audio_filename))]⟩, st')
  else
    (⟨400, .json [("error", .str "No text provided for TTS")]⟩, st)

/-- Flask helper `send_from_directory(AUDIO_FOLDER, filename)`: serves the file
when it exists, and otherwise raises `werkzeug.exceptions.NotFound` — an
`HTTPException`, not the builtin `FileNotFoundError`. -/
def send_from_directory (audio : List (String × String)) (filename : String) :
    Except PyExc String :=
  match List.lookup filename audio with
  | some contents => .ok contents
  | none => .error .werkzeugNotFound

/-- How Flask handles an exception that escapes a view function: an
`HTTPException` is rendered as its default HTML error page; anything
else becomes the default HTML 500 page. -/
def flaskDefaultResponse : PyExc → Response
  | .werkzeugNotFound => ⟨404, .html "404 Not Found"⟩
  | _ => ⟨500, .html "500 Internal Server Error"⟩

/-- The `/audio/<filename>` handler (`src/app.py` lines 192–200): calls
`send_from_directory` inside a `try` whose only clause is
`except FileNotFoundError`; any other exception escapes to Flask. -/
def serve_audio (audio : List (String × String)) (filename : String) : Response :=
  match send_from_directory audio filename with
  | .ok contents => ⟨200, .file contents⟩
  | .error .fileNotFoundError => ⟨404, .json [("error", .str "Audio file not found")]⟩
  | .error e => flaskDefaultResponse e

/-- The `/text` route as a file-system transformer: it performs no
writes, so the state passes through unchanged. -/
def get_text_route (st : ServerState) (body : List (String × Json)) :
    Response × ServerState :=
  (get_text st.uploads body, st)

/-- The `/summarize` route as a file-system transformer: no writes. -/
def summarize_route (st : ServerState) (googleApiKey : Option String)
    (remote : String → Except String String)
    (body : List (String × Json)) : Response × ServerState :=
  (summarize_text googleApiKey remote body, st)

/-- The `/audio/<filename>` route as a file-system transformer: no
writes. -/
def serve_audio_route (st : ServerState) (filename : String) :
    Response × ServerState :=
  (serve_audio st.audio filename, st)

/-! ### Helper lemmas about the extraction loop -/

theorem foldl_append_eq_concat (g : Nat → String) :
    ∀ (l : List Nat) (acc : String),
      l.foldl (fun t p => t ++ g p) acc = acc ++ concatAll (l.map g) := by
  intro l
  induction l with
  | nil => intro acc; simp [concatAll]
  | cons x xs ih =>
    intro acc
    simp only [List.foldl_cons, List.map_cons]
    rw [ih]
    simp [concatAll, String.append_assoc]

theorem foldl_congr_on_mem {α β : Type} (f g : β → α → β) :
    ∀ (l : List α) (acc : β), (∀ x ∈ l, ∀ t, f t x = g t x) →
      l.foldl f acc = l.foldl g acc := by
  intro l
  induction l with
  | nil => intro acc _; rfl
  | cons x xs ih =>
    intro acc h
    simp only [List.foldl_cons]
    rw [h x (List.mem_cons_self x xs) acc]
    exact ih _ (fun y hy t => h y (List.mem_cons_of_mem x hy) t)

theorem map_getD_range' (l : List String) :
    ∀ (len a : Nat), a + len ≤ l.length →
      (List.range' a len).map (fun p => l.getD p "") = (l.drop a).take len := by
  intro len
  induction len with
  | zero => intro a _; simp
  | succ k ih =>
    intro a h
    have ha : a < l.length := by omega
    rw [List.range'_succ]
    simp only [List.map_cons]
    rw [ih (a + 1) (by omega)]
    rw [List.drop_eq_getElem_cons ha]
    rw [List.take_succ_cons]
    congr 1
    simp [List.getD_eq_getElem?_getD, List.getElem?_eq_getElem ha]

theorem pageTexts_getD (d : PdfDoc) (p : Nat) :
    (pageTexts d).getD p "" = (d.pages.getD p none).getD "" := by
  simp only [pageTexts, List.getD_eq_getElem?_getD, List.getElem?_map]
  cases d.pages[p]? <;> simp

theorem extract_guard_true (d : PdfDoc) (p : Nat) (hp : p < d.pages.length) (t : String) :
    (if (Int.ofNat p) < ((d.pages.length : Nat) : Int) then
      t ++ ((d.pages.getD p none).getD "") else t) = t ++ ((d.pages.getD p none).getD "") := by
  rw [if_pos]
  rw [Int.ofNat_eq_coe]
  exact_mod_cast hp

theorem extract_eq_slice (d : PdfDoc) (s e : Int) :
    extract_text_from_pdf d s e =
      if max 1 s > min (d.pages.length : Int) e then ""
      else concatAll (((pageTexts d).drop (max 1 s - 1).toNat).take
        (min (d.pages.length : Int) e - (max 1 s - 1)).toNat) := by
  unfold extract_text_from_pdf
  by_cases hc : max 1 s > min (d.pages.length : Int) e
  · simp [hc]
  · rw [if_neg hc, if_neg hc]
    push_neg at hc
    have h1 : (1 : Int) ≤ max 1 s := le_max_left 1 s
    have h2 : min (d.pages.length : Int) e ≤ (d.pages.length : Int) := min_le_left _ _
    rw [foldl_congr_on_mem _
      (fun t p => t ++ ((d.pages.getD p none).getD "")) _ ""
      (by
        intro p hp t
        rw [List.mem_range'_1] at hp
        apply extract_guard_true
        omega)]
    rw [foldl_append_eq_concat (fun p => (d.pages.getD p none).getD "")]
    rw [String.empty_append]
    congr 1
    have hfun : (fun p => (d.pages.getD p none).getD "") =
        (fun p => (pageTexts d).getD p "") := by
      funext p
      rw [pageTexts_getD]
    rw [hfun]
    rw [map_getD_range' (pageTexts d) _ _ (by simp [pageTexts]; omega)]

/-- C1: `extract_text_from_pdf` first clamps `startPage` to `max 1 startPage`
and `endPage` to `min numPages endPage`; when the clamped start exceeds the
clamped end (in particular whenever `startPage > numPages`, second conjunct)
it returns `""` without error, and otherwise it returns the concatenation of
the per-page texts of the clamped range, inclusive, in page order. -/
theorem extract_clamps_and_concatenates (d : PdfDoc) (s e : Int) :
    (extract_text_from_pdf d s e =
      if max 1 s > min (d.pages.length : Int) e then ""
      else concatAll (((pageTexts d).drop (max 1 s - 1).toNat).take
        (min (d.pages.length : Int) e - (max 1 s - 1)).toNat))
    ∧ ((d.pages.length : Int) < s → extract_text_from_pdf d s e = "") := by
  refine ⟨extract_eq_slice d s e, fun hgt => ?_⟩
  rw [extract_eq_slice d s e, if_pos (by omega)]

/-- Witness for C1: a 2-page document queried with the range [5, 7] —
the start exceeds the page count, and the result is the empty string. -/
theorem extract_clamps_witness :
    extract_text_from_pdf ⟨[some "a", some "b"]⟩ 5 7 = "" :=
  (extract_clamps_and_concatenates ⟨[some "a", some "b"]⟩ 5 7).2 (by decide)

theorem extract_congr_pages (d₁ d₂ : PdfDoc) (s e : Int)
    (hlen : d₂.pages.length = d₁.pages.length)
    (hpt : ∀ p, (d₂.pages.getD p none).getD "" = (d₁.pages.getD p none).getD "") :
    extract_text_from_pdf d₂ s e = extract_text_from_pdf d₁ s e := by
  unfold extract_text_from_pdf
  rw [hlen]
  by_cases hc : max 1 s > min (d₁.pages.length : Int) e
  · rw [if_pos hc, if_pos hc]
  · rw [if_neg hc, if_neg hc]
    apply foldl_congr_on_mem
    intro p _ t
    rw [hpt p]

/-- C2: a page whose text extraction fails (`page.extract_text()` yields
nothing, modelled as `none`) contributes exactly the empty string: the
total extraction is unchanged when the failed page is replaced by a page
whose text is `""`, and the extraction still returns normally (it is a
total function into `String`) instead of aborting. -/
theorem failed_page_as_empty (d : PdfDoc) (i : Nat) (s e : Int)
    (hfail : d.pages[i]? = some none) :
    extract_text_from_pdf d s e =
      extract_text_from_pdf ⟨d.pages.set i (some "")⟩ s e := by
  have hi : i < d.pages.length := by
    by_contra h
    rw [List.getElem?_eq_none (by omega)] at hfail
    exact Option.noConfusion hfail
  refine (extract_congr_pages d ⟨d.pages.set i (some "")⟩ s e ?_ ?_).symm
  · exact List.length_set d.pages i (some "")
  · intro p
    simp only [List.getD_eq_getElem?_getD, List.getElem?_set]
    by_cases hip : i = p
    · subst hip
      rw [if_pos rfl, if_pos hi, hfail]
      rfl
    · rw [if_neg hip]

/-- Witness for C2: a 3-page document whose middle page fails extraction
extracts the same text as the document with that page blank. -/
theorem failed_page_as_empty_witness :
    extract_text_from_pdf ⟨[some "a", none, some "c"]⟩ 1 3 =
      extract_text_from_pdf ⟨[some "a", some "", some "c"]⟩ 1 3 :=
  failed_page_as_empty ⟨[some "a", none, some "c"]⟩ 1 1 3 (by decide)

/-- C3 fails at the `/audio/<filename>` endpoint: requesting a filename
with no stored audio file yields the default Flask HTML 404 page, not a
JSON body with an `error` field.  Here `send_from_directory` raises the
werkzeug `NotFound`, which the `except FileNotFoundError` clause does
not catch, so the clause that would produce the JSON error body is dead
code on this path. -/
theorem serve_audio_missing_file_is_html_404 :
    serve_audio [] "missing.mp3" = ⟨404, .html "404 Not Found"⟩ ∧
    hasJsonErrorField (serve_audio [] "missing.mp3") = false :=
  ⟨rfl, rfl⟩

/-- C4: with no credential configured, `/summarize` answers 500 with a
JSON `error` field mentioning service configuration, and this happens
before any processing of the request body: the response is the same
constant for every request body (in particular one with no `text` field)
and for every behaviour of the remote service. -/
theorem summarize_unconfigured_checked_first
    (remote : String → Except String String) (body : List (String × Json)) :
    summarize_text none remote body =
      ⟨500, .json [("error", .str "AI Service not configured on server")]⟩ ∧
    hasJsonErrorField (summarize_text none remote body) = true :=
  ⟨rfl, rfl⟩

/-- Counterexample to C5: a `/text` request whose `start_page` is JSON
`null` — a value that is not an integer — is answered with 500
(`int(None)` raises `TypeError`, caught by the generic `except Exception`
clause), not with the claimed 400 invalid-page-numbers response. -/
theorem text_null_page_number_gives_500 :
    get_text [] [("server_filename", .str "doc.pdf"), ("start_page", .null)] =
      ⟨500, .json [("error", .str "Failed to extract text")]⟩ := by
  decide

/-- C5 as amended: a `/text` request whose `start_page` or `end_page`
value makes the Python `int()` call raise `ValueError` (a string that does not
parse as an integer) is answered with the 400 invalid-page-numbers
response, without performing extraction — the response is independent of
the stored uploads.  (A `null` value instead raises `TypeError`,
answered as 500 by the generic handler.) -/
theorem text_unparseable_page_string_gives_400
    (uploads : List (String × Option PdfDoc)) (body : List (String × Json))
    (h : pyInt ((jget body "start_page").getD (.int 1)) = .error .valueError ∨
         ((∃ n, pyInt ((jget body "start_page").getD (.int 1)) = .ok n) ∧
          pyInt ((jget body "end_page").getD (.int 1)) = .error .valueError)) :
    get_text uploads body =
      ⟨400, .json [("error", .str "Invalid page numbers provided")]⟩ := by
  unfold get_text
  rcases h with h | ⟨⟨n, hok⟩, herr⟩
  · simp [h]
  · simp [hok, herr]

/-- Witness for the amended C5: `start_page = "abc"` is answered 400
with no dependence on the uploads store. -/
theorem text_unparseable_page_string_gives_400_witness :
    get_text [] [("server_filename", .str "doc.pdf"), ("start_page", .str "abc")] =
      ⟨400, .json [("error", .str "Invalid page numbers provided")]⟩ :=
  text_unparseable_page_string_gives_400 [] _ (Or.inl (by decide))

/-- C7: on a configured `/summarize` with non-empty text, a failing
remote call is answered 500 with an `error` message that carries the
detail of the upstream error verbatim as a suffix, and a successful remote
call is answered 200 with exactly the upstream response text stripped of
leading and trailing whitespace. -/
theorem summarize_configured_outcomes (k : String)
    (remote : String → Except String String) (body : List (String × Json))
    (t : String) (ht : jget body "text" = some (.str t)) (hne : t ≠ "") :
    (∀ err, remote (mkPrompt t) = .error err →
       summarize_text (some k) remote body =
         ⟨500, .json [("error", .str ("Failed to generate summary: " ++ err))]⟩ ∧
       ∃ pre, "Failed to generate summary: " ++ err = pre ++ err) ∧
    (∀ r, remote (mkPrompt t) = .ok r →
       summarize_text (some k) remote body = ⟨200, .json [("summary", .str r.trim)]⟩) := by
  have htruthy : pyTruthy (Json.str t) = true := by
    simp [pyTruthy, bne_iff_ne]
    exact hne
  constructor
  · intro err herr
    refine ⟨?_, "Failed to generate summary: ", rfl⟩
    simp [summarize_text, ht, htruthy, pyStr, herr]
  · intro r hr
    simp [summarize_text, ht, htruthy, pyStr, hr]

/-- Witness for C7: a failing remote call surfaces its detail in the 500
body; a succeeding one yields the stripped response text. -/
theorem summarize_configured_outcomes_witness :
    summarize_text (some "key")
        (fun _ => .error "quota exceeded") [("text", .str "hello")] =
      ⟨500, .json [("error", .str ("Failed to generate summary: " ++ "quota exceeded"))]⟩ ∧
    summarize_text (some "key")
        (fun _ => .ok "  * point  ") [("text", .str "hello")] =
      ⟨200, .json [("summary", .str ("  * point  ".trim))]⟩ :=
  ⟨((summarize_configured_outcomes "key" (fun _ => .error "quota exceeded")
      [("text", .str "hello")] "hello" (by decide) (by decide)).1 "quota exceeded" rfl).1,
   (summarize_configured_outcomes "key" (fun _ => .ok "  * point  ")
      [("text", .str "hello")] "hello" (by decide) (by decide)).2 "  * point  " rfl⟩

/-- C8: a `/tts` request with non-empty text whose synthesis run does not
raise is answered with `status: "completed"` and an `audio_url` beginning
with `/audio/` — for every write outcome `written`, including `none`
(no output file) and `some ""` (empty output file), since the
post-condition check only logs a warning. -/
theorem tts_completed_without_file_check (st : ServerState) (u : String)
    (written : Option String) (body : List (String × Json))
    (t : String) (ht : jget body "text" = some (.str t)) (hne : t ≠ "") :
    ∃ rest,
      (text_to_speech st u (.ok written) body).1 =
        ⟨200, .json [("status", .str "completed"),
                     ("audio_url", .str ("/audio/" ++ rest))]⟩ := by
  have htruthy : pyTruthy (Json.str t) = true := by
    simp [pyTruthy, bne_iff_ne]
    exact hne
  refine ⟨u ++ ".mp3", ?_⟩
  cases written <;> simp [text_to_speech, ht, htruthy]

/-- Witness for C8: even when no output file is written (`.ok none`),
the response is completed with a `/audio/...` URL. -/
theorem tts_completed_without_file_check_witness :
    ∃ rest,
      (text_to_speech ⟨[], []⟩ "uuid" (.ok none) [("text", .str "hi")]).1 =
        ⟨200, .json [("status", .str "completed"),
                     ("audio_url", .str ("/audio/" ++ rest))]⟩ :=
  tts_completed_without_file_check ⟨[], []⟩ "uuid" none [("text", .str "hi")]
    "hi" (by decide) (by decide)

/-- C10: a `/text` request that omits `start_page` and `end_page` gets
both defaulted to 1, so a body carrying only `server_filename` extracts
exactly page 1 (its text, for a non-empty document), not the whole
document. -/
theorem text_page_range_defaults_to_one (uploads : List (String × Option PdfDoc))
    (fname : String) (reader : PdfDoc)
    (hf : List.lookup fname uploads = some (some reader)) (hne : fname ≠ "") :
    get_text uploads [("server_filename", .str fname)] =
      ⟨200, .json [("text", .str (extract_text_from_pdf reader 1 1))]⟩ ∧
    (0 < reader.pages.length →
      extract_text_from_pdf reader 1 1 = (reader.pages.getD 0 none).getD "") := by
  have htruthy : pyTruthy (Json.str fname) = true := by
    simp [pyTruthy, bne_iff_ne]
    exact hne
  constructor
  · have hsp : ("start_page" == "server_filename") = false := by decide
    have hep : ("end_page" == "server_filename") = false := by decide
    have hsf : ("server_filename" == "server_filename") = true := by decide
    simp [get_text, jget, List.lookup, hsp, hep, hsf, pyInt, htruthy, hf]
  · intro h
    rcases reader with ⟨pages⟩
    cases pages with
    | nil => simp at h
    | cons p rest =>
      have hmin : min (((p :: rest).length : Nat) : Int) 1 = 1 := by
        simp
      rw [extract_eq_slice]
      simp only [hmin]
      rw [if_neg (by norm_num)]
      simp [pageTexts, concatAll]

/-- Witness for C10: a two-page document queried with only
`server_filename` yields the text of page 1 only. -/
theorem text_page_range_defaults_to_one_witness :
    get_text [("a.pdf", some ⟨[some "hello", some "world"]⟩)]
        [("server_filename", .str "a.pdf")] =
      ⟨200, .json [("text",
        .str (extract_text_from_pdf ⟨[some "hello", some "world"]⟩ 1 1))]⟩ ∧
    extract_text_from_pdf ⟨[some "hello", some "world"]⟩ 1 1 =
      ([some "hello", some "world"].getD 0 none).getD "" :=
  ⟨(text_page_range_defaults_to_one [("a.pdf", some ⟨[some "hello", some "world"]⟩)]
      "a.pdf" ⟨[some "hello", some "world"]⟩ (by decide) (by decide)).1,
   (text_page_range_defaults_to_one [("a.pdf", some ⟨[some "hello", some "world"]⟩)]
      "a.pdf" ⟨[some "hello", some "world"]⟩ (by decide) (by decide)).2 (by decide)⟩

theorem lookup_cons_preserve {β : Type} (l : List (String × β)) (k₀ : String) (v₀ : β)
    (hk : List.lookup k₀ l = none) (k : String) (v : β)
    (h : List.lookup k l = some v) :
    List.lookup k ((k₀, v₀) :: l) = some v := by
  cases hkk : (k == k₀) with
  | true =>
    exact absurd h (by rw [eq_of_beq hkk, hk]; exact fun c => Option.noConfusion c)
  | false => simp [List.lookup, hkk, h]

/-- C6 (round-trip): uploading a parseable PDF and then requesting
`/text` for the returned `server_filename` over the full page range
`[1, num_pages]` yields exactly the text of a direct
`extract_text_from_pdf` over the full range of the original document. -/
theorem upload_then_text_roundtrip (st : ServerState) (u : String)
    (file : UploadedFile) (reader : PdfDoc)
    (hparse : file.parsed = some reader)
    (hext : strLower (extOf file.filename) = ".pdf") :
    (upload_pdf st u (some file)).1 =
      ⟨200, .json [("server_filename", .str (generate_unique_filename u file.filename)),
                   ("num_pages", .int reader.pages.length)]⟩ ∧
    get_text (upload_pdf st u (some file)).2.uploads
        [("server_filename", .str (generate_unique_filename u file.filename)),
         ("start_page", .int 1), ("end_page", .int reader.pages.length)] =
      ⟨200, .json [("text", .str (extract_text_from_pdf reader 1 reader.pages.length))]⟩ := by
  have hne : file.filename ≠ "" := by
    intro h0
    rw [h0] at hext
    exact absurd hext (by decide)
  have hvlen : (extOf file.filename).data.length = 4 := by
    have h1 : ((extOf file.filename).data.map Char.toLower).length = (".pdf".data).length :=
      congrArg List.length (congrArg String.data hext)
    simpa using h1
  have hg : generate_unique_filename u file.filename ≠ "" := by
    intro h0
    have h1 : (u ++ extOf file.filename).data = [] := congrArg String.data h0
    rw [String.data_append] at h1
    have := congrArg List.length h1
    simp [hvlen] at this
  have hup : upload_pdf st u (some file) =
      (⟨200, .json [("server_filename", .str (generate_unique_filename u file.filename)),
                    ("num_pages", .int reader.pages.length)]⟩,
       { st with uploads :=
          (generate_unique_filename u file.filename, file.parsed) :: st.uploads }) := by
    simp only [upload_pdf]
    rw [if_neg hne, if_neg (by rw [hext]; exact fun c => c rfl)]
    rw [hparse]
  refine ⟨by rw [hup], ?_⟩
  rw [hup]
  have htruthy : pyTruthy (Json.str (generate_unique_filename u file.filename)) = true := by
    simp [pyTruthy, bne_iff_ne]
    exact hg
  have hb1 : ("start_page" == "server_filename") = false := by decide
  have hb2 : ("end_page" == "server_filename") = false := by decide
  have hb3 : ("end_page" == "start_page") = false := by decide
  simp [get_text, jget, List.lookup, hb1, hb2, hb3, pyInt, htruthy, hparse,
    beq_self_eq_true]

/-- Witness for C6: a concrete 2-page upload round-trips through `/text`. -/
theorem upload_then_text_roundtrip_witness :
    get_text (upload_pdf ⟨[], []⟩ "u1"
        (some ⟨"book.pdf", some ⟨[some "x", some "y"]⟩⟩)).2.uploads
        [("server_filename", .str (generate_unique_filename "u1" "book.pdf")),
         ("start_page", .int 1), ("end_page", .int 2)] =
      ⟨200, .json [("text", .str (extract_text_from_pdf ⟨[some "x", some "y"]⟩ 1 2))]⟩ :=
  (upload_then_text_roundtrip ⟨[], []⟩ "u1" ⟨"book.pdf", some ⟨[some "x", some "y"]⟩⟩
    ⟨[some "x", some "y"]⟩ rfl (by decide)).2

/-- C9 (write-once storage): no endpoint modifies or deletes a stored
file.  Every previously stored upload and audio file is still present
with unchanged contents after any single request; `/text`, `/summarize`
and `/audio/<filename>` leave the file system exactly as it was; and
`/upload` (resp. `/tts`) either writes nothing (failed validation) or
extends the store by exactly one file under its freshly generated name. -/
theorem stored_files_write_once (st : ServerState) (u₁ u₂ fname : String)
    (filePart : Option UploadedFile)
    (bodyT bodyS bodyTts : List (String × Json))
    (key : Option String) (remote : String → Except String String)
    (synth : Except Unit (Option String))
    (h₁ : ∀ file, filePart = some file →
      List.lookup (generate_unique_filename u₁ file.filename) st.uploads = none)
    (h₂ : List.lookup (u₂ ++ ".mp3") st.audio = none) :
    ((∀ k v, List.lookup k st.uploads = some v →
        List.lookup k (upload_pdf st u₁ filePart).2.uploads = some v) ∧
     (upload_pdf st u₁ filePart).2.audio = st.audio ∧
     ((upload_pdf st u₁ filePart).2.uploads = st.uploads ∨
       ∃ file v, filePart = some file ∧
         (upload_pdf st u₁ filePart).2.uploads =
           (generate_unique_filename u₁ file.filename, v) :: st.uploads)) ∧
    (get_text_route st bodyT).2 = st ∧
    (summarize_route st key remote bodyS).2 = st ∧
    ((∀ k v, List.lookup k st.audio = some v →
        List.lookup k (text_to_speech st u₂ synth bodyTts).2.audio = some v) ∧
     (text_to_speech st u₂ synth bodyTts).2.uploads = st.uploads ∧
     ((text_to_speech st u₂ synth bodyTts).2.audio = st.audio ∨
       ∃ c, (text_to_speech st u₂ synth bodyTts).2.audio =
         (u₂ ++ ".mp3", c) :: st.audio)) ∧
    (serve_audio_route st fname).2 = st := by
  have hupload : (upload_pdf st u₁ filePart).2 = st ∨
      ∃ file v, filePart = some file ∧
        (upload_pdf st u₁ filePart).2 =
          { st with uploads :=
            (generate_unique_filename u₁ file.filename, v) :: st.uploads } := by
    match filePart with
    | none => exact Or.inl rfl
    | some file =>
      by_cases hf0 : file.filename = ""
      · exact Or.inl (by simp [upload_pdf, hf0])
      · by_cases hf1 : strLower (extOf file.filename) ≠ ".pdf"
        · exact Or.inl (by simp [upload_pdf, hf0, hf1])
        · refine Or.inr ⟨file, file.parsed, rfl, ?_⟩
          simp only [upload_pdf]
          rw [if_neg hf0, if_neg hf1]
          cases file.parsed <;> rfl
  have htts : (text_to_speech st u₂ synth bodyTts).2 = st ∨
      ∃ c, (text_to_speech st u₂ synth bodyTts).2 =
        { st with audio := (u₂ ++ ".mp3", c) :: st.audio } := by
    by_cases ht : pyTruthy ((jget bodyTts "text").getD .null) = true
    · match synth with
      | .error e => exact Or.inl (by simp [text_to_speech, ht])
      | .ok none => exact Or.inl (by simp [text_to_speech, ht])
      | .ok (some c) => exact Or.inr ⟨c, by simp [text_to_speech, ht]⟩
    · exact Or.inl (by simp [text_to_speech, ht])
  refine ⟨⟨?_, ?_, ?_⟩, rfl, rfl, ⟨?_, ?_, ?_⟩, rfl⟩
  · intro k v hv
    rcases hupload with h | ⟨file, w, hfp, h⟩
    · rw [h]; exact hv
    · rw [h]
      exact lookup_cons_preserve st.uploads _ w (h₁ file hfp) k v hv
  · rcases hupload with h | ⟨file, w, hfp, h⟩ <;> rw [h]
  · rcases hupload with h | ⟨file, w, hfp, h⟩
    · exact Or.inl (by rw [h])
    · exact Or.inr ⟨file, w, hfp, by rw [h]⟩
  · intro k v hv
    rcases htts with h | ⟨c, h⟩
    · rw [h]; exact hv
    · rw [h]
      exact lookup_cons_preserve st.audio _ c h₂ k v hv
  · rcases htts with h | ⟨c, h⟩ <;> rw [h]
  · rcases htts with h | ⟨c, h⟩
    · exact Or.inl (by rw [h])
    · exact Or.inr ⟨c, by rw [h]⟩

/-- Witness for C9: on a server already holding one upload and one audio
file, an upload request leaves the old upload readable unchanged, and a
`/text` request leaves the whole state untouched. -/
theorem stored_files_write_once_witness :
    List.lookup "old.pdf"
      (upload_pdf ⟨[("old.pdf", some ⟨[some "x"]⟩)], [("old.mp3", "A")]⟩ "u1"
        (some ⟨"b.pdf", some ⟨[]⟩⟩)).2.uploads = some (some ⟨[some "x"]⟩) ∧
    (get_text_route ⟨[("old.pdf", some ⟨[some "x"]⟩)], [("old.mp3", "A")]⟩ []).2 =
      ⟨[("old.pdf", some ⟨[some "x"]⟩)], [("old.mp3", "A")]⟩ :=
  have h := stored_files_write_once
    ⟨[("old.pdf", some ⟨[some "x"]⟩)], [("old.mp3", "A")]⟩ "u1" "u2" "old.mp3"
    (some ⟨"b.pdf", some ⟨[]⟩⟩) [] [] [] none (fun _ => .ok "") (.ok (some "B"))
    (by intro file hf; cases hf; decide) (by decide)
  ⟨h.1.1 "old.pdf" (some ⟨[some "x"]⟩) (by decide), h.2.1⟩
